import Mathlib

/-!
Shallow embedding of the `rest_err` Go package (`src/rest_err/rest_err.go`):
a structured, HTTP-status-aware error value (`RestErr`), its ~20 named
constructors, classification predicates, error-chain integration
(`WithCause` / `Unwrap` / `Error`), and chain recovery
(`NewRestErrFromError` / `ParseError`).

Modelling conventions:
* Go `error` values form chains; we model the chain shapes relevant to this
  package with a mutual inductive: `GoError.basic` is an `errors.New`-style
  leaf (no `Unwrap`), `GoError.wrapf` is a wrapper in the style of
  `fmt.Errorf("ctx: %w", e)` carrying a context string and an inner error,
  and `GoError.rest` injects a `*RestErr` into the `error` interface.
  A Go `nil` error is `Option.none` (`Option GoError`).
* `time.Now()` is modelled by threading an explicit `now : Nat` parameter
  into every constructor that sets `Timestamp`.
* `fmt.Sprintf` is modelled for the verbs exercised by this package
  (`%s`, `%d`, `%%`), including the Go `%!s(MISSING)`-style markers for
  missing arguments and a mismatched-verb marker; surplus arguments append
  an abbreviated Go-style `%!(EXTRA ...)` marker.
-/

namespace RestErrPkg

/-- The `Causes` record from the source: one field-level validation detail. -/
structure Causes where
  Field : String
  Message : String
deriving DecidableEq, Repr

mutual
/-- A Go error chain, as walked by `errors.As`: a leaf error, a
`fmt.Errorf`-style wrapper (whose `Unwrap` yields the inner error), or a
`*RestErr` value used as an `error`. -/
inductive GoError where
| basic : String → GoError
| wrapf : String → GoError → GoError
| rest : RestErr → GoError

/-- The `RestErr` struct from the source, fields in source order:
`Message`, `Err` (error class), `Code`, `Causes`, `Timestamp`, `Wrapped`. -/
inductive RestErr where
| mk : String → String → Int → List Causes → Nat → Option GoError → RestErr
end

/-- Field accessor for `RestErr.Message`. -/
def RestErr.Message : RestErr → String
| .mk m _ _ _ _ _ => m

/-- Field accessor for `RestErr.Err` (the short error class). -/
def RestErr.Err : RestErr → String
| .mk _ e _ _ _ _ => e

/-- Field accessor for `RestErr.Code` (the HTTP status code). -/
def RestErr.Code : RestErr → Int
| .mk _ _ c _ _ _ => c

/-- Field accessor for `RestErr.Causes`. -/
def RestErr.Causes : RestErr → List Causes
| .mk _ _ _ cs _ _ => cs

/-- Field accessor for `RestErr.Timestamp`. -/
def RestErr.Timestamp : RestErr → Nat
| .mk _ _ _ _ t _ => t

/-- Field accessor for `RestErr.Wrapped` (the underlying error, `nil` as `none`). -/
def RestErr.Wrapped : RestErr → Option GoError
| .mk _ _ _ _ _ w => w

mutual
/-- Rendering a Go error to a string (its `Error()` method): a leaf renders
its message, a `fmt.Errorf("...: %w", e)` wrapper renders its context
followed by the inner error, and a `*RestErr` renders via `RestErr.Error`. -/
def GoError.render : GoError → String
| .basic s => s
| .wrapf s inner => s ++ ": " ++ GoError.render inner
| .rest r => RestErr.Error r

/-- Source: `func (r *RestErr) Error() string`: with a wrapped cause,
`fmt.Sprintf("%s: %v", r.Message, r.Wrapped)`; otherwise `r.Message`. -/
def RestErr.Error : RestErr → String
| .mk m _ _ _ _ (some w) => m ++ ": " ++ GoError.render w
| .mk m _ _ _ _ none => m
end

/-- Source: `func (r *RestErr) Unwrap() error`: returns the underlying error. -/
def RestErr.Unwrap (r : RestErr) : Option GoError :=
  r.Wrapped

/-- Source: `func (r *RestErr) WithCause(err error) *RestErr`: sets `Wrapped` and
returns the value. -/
def RestErr.WithCause (r : RestErr) (err : Option GoError) : RestErr :=
  match r with
  | .mk m e c cs t _ => .mk m e c cs t err

/-- Source: `func (r *RestErr) IsClientError() bool`: `r.Code >= 400 && r.Code < 500`. -/
def RestErr.IsClientError (r : RestErr) : Bool :=
  decide (400 ≤ r.Code) && decide (r.Code < 500)

/-- Source: `func (r *RestErr) IsServerError() bool`: `r.Code >= 500 && r.Code < 600`. -/
def RestErr.IsServerError (r : RestErr) : Bool :=
  decide (500 ≤ r.Code) && decide (r.Code < 600)

/-- Source: `func (r *RestErr) IsNotFound() bool`: `r.Code == 404`. -/
def RestErr.IsNotFound (r : RestErr) : Bool :=
  decide (r.Code = 404)

/-- Source: `func (r *RestErr) IsUnauthorized() bool`: `r.Code == 401`. -/
def RestErr.IsUnauthorized (r : RestErr) : Bool :=
  decide (r.Code = 401)

/-- Source: `func (r *RestErr) IsForbidden() bool`: `r.Code == 403`. -/
def RestErr.IsForbidden (r : RestErr) : Bool :=
  decide (r.Code = 403)

/-- Models `errors.As(err, &restErr)` for target type `*RestErr`: returns the first
`*RestErr` found walking the chain via `Unwrap`; `errors.New`-style leaves
have no `Unwrap`, so the walk stops there. -/
def errorsAs : GoError → Option RestErr
| .rest r => some r
| .wrapf _ inner => errorsAs inner
| .basic _ => none

/-- Whether a Go error chain contains a `*RestErr` anywhere `errors.As`
would look. -/
def chainHasRest : GoError → Bool
| .rest _ => true
| .wrapf _ inner => chainHasRest inner
| .basic _ => false

/-- Wrap an error under a stack of `fmt.Errorf("...%w")`-style wrappers,
outermost context first: the generic "wrapped at any finite depth" chain. -/
def wrapAll : List String → GoError → GoError
| [], e => e
| s :: ss, e => .wrapf s (wrapAll ss e)

/-- One positional argument to a formatted constructor: the package only
ever formats strings and integers. -/
inductive FmtArg where
| str : String → FmtArg
| int : Int → FmtArg

/-- How the Go verb `%s` renders an argument (with the mismatch marker for ints). -/
def FmtArg.renderS : FmtArg → String
| .str s => s
| .int n => "%!s(int=" ++ toString n ++ ")"

/-- How the Go verb `%d` renders an argument (with the mismatch marker for strings). -/
def FmtArg.renderD : FmtArg → String
| .int n => toString n
| .str s => "%!d(string=" ++ s ++ ")"

/-- Character-list worker for the `fmt.Sprintf` model. -/
def sprintfAux : List Char → List FmtArg → String
| [], [] => ""
| [], _ :: _ => "%!(EXTRA ...)"
| '%' :: 's' :: cs, a :: args => FmtArg.renderS a ++ sprintfAux cs args
| '%' :: 'd' :: cs, a :: args => FmtArg.renderD a ++ sprintfAux cs args
| '%' :: 's' :: cs, [] => "%!s(MISSING)" ++ sprintfAux cs []
| '%' :: 'd' :: cs, [] => "%!d(MISSING)" ++ sprintfAux cs []
| '%' :: '%' :: cs, args => "%" ++ sprintfAux cs args
| c :: cs, args => String.singleton c ++ sprintfAux cs args

/-- Models `fmt.Sprintf(message, args...)` restricted to the verbs this package
uses (`%s`, `%d`, `%%`). -/
def sprintf (message : String) (args : List FmtArg) : String :=
  sprintfAux message.toList args

/-- Source: `func NewRestErr(message, err string, code int, causes []Causes) *RestErr`. -/
def NewRestErr (message errStr : String) (code : Int) (causes : List Causes)
    (now : Nat) : RestErr :=
  .mk message errStr code causes now none

/-- Source: `func NewRestErrFromError(err error) *RestErr`: `nil` maps to `nil`;
a chain already holding a `*RestErr` (per `errors.As`) returns it; otherwise
a fresh 500 "internal server error" value wrapping the input. -/
def NewRestErrFromError (err : Option GoError) (now : Nat) : Option RestErr :=
  match err with
  | none => none
  | some e =>
    match errorsAs e with
    | some restErr => some restErr
    | none =>
      some (.mk "An unexpected error occurred" "internal server error" 500 []
        now (some e))

/-- Source: `func ParseError(err error) (*RestErr, bool)`: extracts a `*RestErr`
from the chain with a found flag, synthesizing nothing. -/
def ParseError (err : Option GoError) : Option RestErr × Bool :=
  match err with
  | none => (none, false)
  | some e =>
    match errorsAs e with
    | some restErr => (some restErr, true)
    | none => (none, false)

/-- Source: `func NewBadRequestError(message string, args ...any) *RestErr`. -/
def NewBadRequestError (message : String) (args : List FmtArg) (now : Nat) :
    RestErr :=
  .mk (sprintf message args) "bad request" 400 [] now none

/-- Source: `func NewBadRequestValidationError(message string, causes []Causes) *RestErr`. -/
def NewBadRequestValidationError (message : String) (causes : List Causes)
    (now : Nat) : RestErr :=
  .mk message "bad request" 400 causes now none

/-- Source: `func NewInternalServerError(message string, args ...any) *RestErr`. -/
def NewInternalServerError (message : String) (args : List FmtArg) (now : Nat) :
    RestErr :=
  .mk (sprintf message args) "internal server error" 500 [] now none

/-- Source: `func NewNotFoundError(message string, args ...any) *RestErr`. -/
def NewNotFoundError (message : String) (args : List FmtArg) (now : Nat) :
    RestErr :=
  .mk (sprintf message args) "not found" 404 [] now none

/-- Source: `func NewForbiddenError(message string, args ...any) *RestErr`. -/
def NewForbiddenError (message : String) (args : List FmtArg) (now : Nat) :
    RestErr :=
  .mk (sprintf message args) "forbidden" 403 [] now none

/-- Source: `func NewUnauthorizedError(message string, args ...any) *RestErr`. -/
def NewUnauthorizedError (message : String) (args : List FmtArg) (now : Nat) :
    RestErr :=
  .mk (sprintf message args) "unauthorized" 401 [] now none

/-- Source: `func NewBadGatewayError(message string, args ...any) *RestErr`. -/
def NewBadGatewayError (message : String) (args : List FmtArg) (now : Nat) :
    RestErr :=
  .mk (sprintf message args) "bad gateway" 502 [] now none

/-- Source: `func NewConflictError(message string, args ...any) *RestErr`. -/
def NewConflictError (message : String) (args : List FmtArg) (now : Nat) :
    RestErr :=
  .mk (sprintf message args) "conflict" 409 [] now none

/-- Source: `func NewUnprocessableEntityError(message string, causes []Causes) *RestErr`. -/
def NewUnprocessableEntityError (message : String) (causes : List Causes)
    (now : Nat) : RestErr :=
  .mk message "unprocessable entity" 422 causes now none

/-- Source: `func NewTooManyRequestsError(message string, args ...any) *RestErr`. -/
def NewTooManyRequestsError (message : String) (args : List FmtArg) (now : Nat) :
    RestErr :=
  .mk (sprintf message args) "too many requests" 429 [] now none

/-- Source: `func NewServiceUnavailableError(message string, args ...any) *RestErr`. -/
def NewServiceUnavailableError (message : String) (args : List FmtArg)
    (now : Nat) : RestErr :=
  .mk (sprintf message args) "service unavailable" 503 [] now none

/-- Source: `func NewGatewayTimeoutError(message string, args ...any) *RestErr`. -/
def NewGatewayTimeoutError (message : String) (args : List FmtArg) (now : Nat) :
    RestErr :=
  .mk (sprintf message args) "gateway timeout" 504 [] now none

/-- Source: `func NewPreconditionFailedError(message string, args ...any) *RestErr`. -/
def NewPreconditionFailedError (message : String) (args : List FmtArg)
    (now : Nat) : RestErr :=
  .mk (sprintf message args) "precondition failed" 412 [] now none

/-- Source: `func NewNotAcceptableError(message string, args ...any) *RestErr`. -/
def NewNotAcceptableError (message : String) (args : List FmtArg) (now : Nat) :
    RestErr :=
  .mk (sprintf message args) "not acceptable" 406 [] now none

/-- Source: `func NewLengthRequiredError(message string, args ...any) *RestErr`. -/
def NewLengthRequiredError (message : String) (args : List FmtArg) (now : Nat) :
    RestErr :=
  .mk (sprintf message args) "length required" 411 [] now none

/-- Source: `func NewUnsupportedMediaTypeError(message string, args ...any) *RestErr`. -/
def NewUnsupportedMediaTypeError (message : String) (args : List FmtArg)
    (now : Nat) : RestErr :=
  .mk (sprintf message args) "unsupported media type" 415 [] now none

/-- Source: `func NewExpectationFailedError(message string, args ...any) *RestErr`. -/
def NewExpectationFailedError (message : String) (args : List FmtArg)
    (now : Nat) : RestErr :=
  .mk (sprintf message args) "expectation failed" 417 [] now none

/-- Source: `func NewConflictValidationError(message string, causes []Causes) *RestErr`. -/
def NewConflictValidationError (message : String) (causes : List Causes)
    (now : Nat) : RestErr :=
  .mk message "conflict" 409 causes now none

/-- Source: `func NewRequestTimeoutError(message string, args ...any) *RestErr`. -/
def NewRequestTimeoutError (message : String) (args : List FmtArg) (now : Nat) :
    RestErr :=
  .mk (sprintf message args) "request timeout" 408 [] now none

/-- Source: `func NewHttpVersionNotSupportedError(message string, args ...any) *RestErr`. -/
def NewHttpVersionNotSupportedError (message : String) (args : List FmtArg)
    (now : Nat) : RestErr :=
  .mk (sprintf message args) "http version not supported" 505 [] now none

/-- The fixed status-code / error-class pairs hard-coded across the
status-specific constructors (and the `NewRestErrFromError` default). -/
def fixedPairs : List (Int × String) :=
  [(400, "bad request"), (401, "unauthorized"), (403, "forbidden"),
   (404, "not found"), (406, "not acceptable"), (408, "request timeout"),
   (409, "conflict"), (411, "length required"), (412, "precondition failed"),
   (415, "unsupported media type"), (417, "expectation failed"),
   (422, "unprocessable entity"), (429, "too many requests"),
   (500, "internal server error"), (502, "bad gateway"),
   (503, "service unavailable"), (504, "gateway timeout"),
   (505, "http version not supported")]

/-- The value was produced by one of the twenty status-specific constructors
(every exported constructor except the generic `NewRestErr` and the
conversion `NewRestErrFromError`), listed in source order. -/
def ProducedByStatusCtor (r : RestErr) : Prop :=
  (∃ m a t, r = NewBadRequestError m a t) ∨
  (∃ m cs t, r = NewBadRequestValidationError m cs t) ∨
  (∃ m a t, r = NewInternalServerError m a t) ∨
  (∃ m a t, r = NewNotFoundError m a t) ∨
  (∃ m a t, r = NewForbiddenError m a t) ∨
  (∃ m a t, r = NewUnauthorizedError m a t) ∨
  (∃ m a t, r = NewBadGatewayError m a t) ∨
  (∃ m a t, r = NewConflictError m a t) ∨
  (∃ m cs t, r = NewUnprocessableEntityError m cs t) ∨
  (∃ m a t, r = NewTooManyRequestsError m a t) ∨
  (∃ m a t, r = NewServiceUnavailableError m a t) ∨
  (∃ m a t, r = NewGatewayTimeoutError m a t) ∨
  (∃ m a t, r = NewPreconditionFailedError m a t) ∨
  (∃ m a t, r = NewNotAcceptableError m a t) ∨
  (∃ m a t, r = NewLengthRequiredError m a t) ∨
  (∃ m a t, r = NewUnsupportedMediaTypeError m a t) ∨
  (∃ m a t, r = NewExpectationFailedError m a t) ∨
  (∃ m cs t, r = NewConflictValidationError m cs t) ∨
  (∃ m a t, r = NewRequestTimeoutError m a t) ∨
  (∃ m a t, r = NewHttpVersionNotSupportedError m a t)

/-- Helper: `errors.As` finds nothing in a chain without a `RestErr`. -/
theorem errorsAs_eq_none_of_not_has :
    ∀ e : GoError, chainHasRest e = false → errorsAs e = none
| .basic _, _ => rfl
| .wrapf _ inner, h =>
    errorsAs_eq_none_of_not_has inner (by simpa [chainHasRest] using h)
| .rest _, h => by simp [chainHasRest] at h

/-- Helper: `errors.As` recovers the `RestErr` under any stack of generic
wrappers. -/
theorem errorsAs_wrapAll_rest (ss : List String) (r : RestErr) :
    errorsAs (wrapAll ss (.rest r)) = some r := by
  induction ss with
  | nil => rfl
  | cons s ss ih => simpa [wrapAll, errorsAs] using ih

/-- Claim C1: every status-specific constructor, for every message (and
causes, where accepted) and every construction time, returns a value whose
`Code` and `Err` (error class) equal the documented fixed pair. -/
theorem constructors_fixed_pairs :
    ∀ (m : String) (a : List FmtArg) (cs : List Causes) (t : Nat),
      ((NewBadRequestError m a t).Code = 400 ∧
        (NewBadRequestError m a t).Err = "bad request") ∧
      ((NewBadRequestValidationError m cs t).Code = 400 ∧
        (NewBadRequestValidationError m cs t).Err = "bad request") ∧
      ((NewInternalServerError m a t).Code = 500 ∧
        (NewInternalServerError m a t).Err = "internal server error") ∧
      ((NewNotFoundError m a t).Code = 404 ∧
        (NewNotFoundError m a t).Err = "not found") ∧
      ((NewForbiddenError m a t).Code = 403 ∧
        (NewForbiddenError m a t).Err = "forbidden") ∧
      ((NewUnauthorizedError m a t).Code = 401 ∧
        (NewUnauthorizedError m a t).Err = "unauthorized") ∧
      ((NewBadGatewayError m a t).Code = 502 ∧
        (NewBadGatewayError m a t).Err = "bad gateway") ∧
      ((NewConflictError m a t).Code = 409 ∧
        (NewConflictError m a t).Err = "conflict") ∧
      ((NewUnprocessableEntityError m cs t).Code = 422 ∧
        (NewUnprocessableEntityError m cs t).Err = "unprocessable entity") ∧
      ((NewTooManyRequestsError m a t).Code = 429 ∧
        (NewTooManyRequestsError m a t).Err = "too many requests") ∧
      ((NewServiceUnavailableError m a t).Code = 503 ∧
        (NewServiceUnavailableError m a t).Err = "service unavailable") ∧
      ((NewGatewayTimeoutError m a t).Code = 504 ∧
        (NewGatewayTimeoutError m a t).Err = "gateway timeout") ∧
      ((NewPreconditionFailedError m a t).Code = 412 ∧
        (NewPreconditionFailedError m a t).Err = "precondition failed") ∧
      ((NewNotAcceptableError m a t).Code = 406 ∧
        (NewNotAcceptableError m a t).Err = "not acceptable") ∧
      ((NewLengthRequiredError m a t).Code = 411 ∧
        (NewLengthRequiredError m a t).Err = "length required") ∧
      ((NewUnsupportedMediaTypeError m a t).Code = 415 ∧
        (NewUnsupportedMediaTypeError m a t).Err = "unsupported media type") ∧
      ((NewExpectationFailedError m a t).Code = 417 ∧
        (NewExpectationFailedError m a t).Err = "expectation failed") ∧
      ((NewConflictValidationError m cs t).Code = 409 ∧
        (NewConflictValidationError m cs t).Err = "conflict") ∧
      ((NewRequestTimeoutError m a t).Code = 408 ∧
        (NewRequestTimeoutError m a t).Err = "request timeout") ∧
      ((NewHttpVersionNotSupportedError m a t).Code = 505 ∧
        (NewHttpVersionNotSupportedError m a t).Err
          = "http version not supported") := by
  intro m a cs t
  exact ⟨⟨rfl, rfl⟩, ⟨rfl, rfl⟩, ⟨rfl, rfl⟩, ⟨rfl, rfl⟩, ⟨rfl, rfl⟩,
    ⟨rfl, rfl⟩, ⟨rfl, rfl⟩, ⟨rfl, rfl⟩, ⟨rfl, rfl⟩, ⟨rfl, rfl⟩,
    ⟨rfl, rfl⟩, ⟨rfl, rfl⟩, ⟨rfl, rfl⟩, ⟨rfl, rfl⟩, ⟨rfl, rfl⟩,
    ⟨rfl, rfl⟩, ⟨rfl, rfl⟩, ⟨rfl, rfl⟩, ⟨rfl, rfl⟩, ⟨rfl, rfl⟩⟩

/-- Claim C2 counterexample: the generic exported constructor `NewRestErr`
accepts arbitrary code and class arguments, so an exported constructor can
produce the status code 404 paired with an error class other than the
`"not found"` class that `NewNotFoundError` pairs with 404 — the code-class
association over all exported constructors is not one-to-one. -/
theorem newRestErr_breaks_code_class_map :
    (NewRestErr "m" "foo" 404 [] 0).Code = (NewNotFoundError "m" [] 0).Code ∧
    (NewRestErr "m" "foo" 404 [] 0).Err ≠ (NewNotFoundError "m" [] 0).Err :=
  ⟨rfl, by decide⟩

/-- Claim C2 (amended): every value produced by a status-specific
constructor carries a code-class pair from the fixed table `fixedPairs`,
and that table is one-to-one in both directions; the generic `NewRestErr`
is excluded, since it passes arbitrary code and class arguments through. -/
theorem status_ctors_code_class_one_to_one :
    (∀ r : RestErr, ProducedByStatusCtor r → (r.Code, r.Err) ∈ fixedPairs) ∧
    (∀ p ∈ fixedPairs, ∀ q ∈ fixedPairs, p.1 = q.1 ↔ p.2 = q.2) := by
  constructor
  · rintro r (⟨m, a, t, rfl⟩ | ⟨m, cs, t, rfl⟩ | ⟨m, a, t, rfl⟩ |
      ⟨m, a, t, rfl⟩ | ⟨m, a, t, rfl⟩ | ⟨m, a, t, rfl⟩ | ⟨m, a, t, rfl⟩ |
      ⟨m, a, t, rfl⟩ | ⟨m, cs, t, rfl⟩ | ⟨m, a, t, rfl⟩ | ⟨m, a, t, rfl⟩ |
      ⟨m, a, t, rfl⟩ | ⟨m, a, t, rfl⟩ | ⟨m, a, t, rfl⟩ | ⟨m, a, t, rfl⟩ |
      ⟨m, a, t, rfl⟩ | ⟨m, a, t, rfl⟩ | ⟨m, cs, t, rfl⟩ | ⟨m, a, t, rfl⟩ |
      ⟨m, a, t, rfl⟩) <;>
    first
      | exact (by decide : ((400 : Int), "bad request") ∈ fixedPairs)
      | exact (by decide : ((401 : Int), "unauthorized") ∈ fixedPairs)
      | exact (by decide : ((403 : Int), "forbidden") ∈ fixedPairs)
      | exact (by decide : ((404 : Int), "not found") ∈ fixedPairs)
      | exact (by decide : ((406 : Int), "not acceptable") ∈ fixedPairs)
      | exact (by decide : ((408 : Int), "request timeout") ∈ fixedPairs)
      | exact (by decide : ((409 : Int), "conflict") ∈ fixedPairs)
      | exact (by decide : ((411 : Int), "length required") ∈ fixedPairs)
      | exact (by decide : ((412 : Int), "precondition failed") ∈ fixedPairs)
      | exact (by decide : ((415 : Int), "unsupported media type") ∈ fixedPairs)
      | exact (by decide : ((417 : Int), "expectation failed") ∈ fixedPairs)
      | exact (by decide : ((422 : Int), "unprocessable entity") ∈ fixedPairs)
      | exact (by decide : ((429 : Int), "too many requests") ∈ fixedPairs)
      | exact (by decide : ((500 : Int), "internal server error") ∈ fixedPairs)
      | exact (by decide : ((502 : Int), "bad gateway") ∈ fixedPairs)
      | exact (by decide : ((503 : Int), "service unavailable") ∈ fixedPairs)
      | exact (by decide : ((504 : Int), "gateway timeout") ∈ fixedPairs)
      | exact
          (by decide : ((505 : Int), "http version not supported") ∈ fixedPairs)
  · decide

/-- Claim C2 (amended) witness: a concrete constructed value, shown to be
covered by the amended statement. -/
theorem status_ctors_code_class_witness :
    ((NewNotFoundError "x" [] 0).Code, (NewNotFoundError "x" [] 0).Err)
      ∈ fixedPairs :=
  status_ctors_code_class_one_to_one.1 (NewNotFoundError "x" [] 0)
    (Or.inr (Or.inr (Or.inr (Or.inl ⟨"x", [], 0, rfl⟩))))

/-- Claim C3: `NewRestErrFromError` applied to a chain that is, or wraps at
any finite depth, a `RestErr` returns exactly that `RestErr` — all fields
(code, message, class, causes) are those of the structured error found in
the chain, with nothing new synthesized. -/
theorem fromGenericError_recovers_structured :
    ∀ (ss : List String) (r : RestErr) (now : Nat),
      NewRestErrFromError (some (wrapAll ss (.rest r))) now = some r := by
  intro ss r now
  simp [NewRestErrFromError, errorsAs_wrapAll_rest]

/-- Claim C4: `NewRestErrFromError` maps `nil` to `nil`; applied to any
non-nil error whose chain contains no `RestErr`, it returns a fresh value
with status code 500 whose `Unwrap` yields the original input error. -/
theorem fromGenericError_nil_and_default :
    (∀ now, NewRestErrFromError none now = none) ∧
    (∀ (e : GoError) (now : Nat), chainHasRest e = false →
      ∃ r : RestErr, NewRestErrFromError (some e) now = some r ∧
        r.Code = 500 ∧ r.Unwrap = some e) := by
  constructor
  · intro now
    rfl
  · intro e now h
    refine ⟨.mk "An unexpected error occurred" "internal server error" 500 []
      now (some e), ?_, rfl, rfl⟩
    simp [NewRestErrFromError, errorsAs_eq_none_of_not_has e h]

/-- Claim C4 witness: a concrete plain error converts to a 500 value that
unwraps back to it. -/
theorem fromGenericError_default_witness :
    ∃ r : RestErr, NewRestErrFromError (some (.basic "boom")) 3 = some r ∧
      r.Code = 500 ∧ r.Unwrap = some (.basic "boom") :=
  fromGenericError_nil_and_default.2 (.basic "boom") 3 rfl

/-- Claim C5: `ParseError` reports not-found for `nil` and for any chain
without a `RestErr`, synthesizing no default value; for a chain that is, or
wraps at any finite depth, a `RestErr`, it reports found and returns that
original `RestErr` unmodified. -/
theorem parseError_found_and_not_found :
    ParseError none = (none, false) ∧
    (∀ e : GoError, chainHasRest e = false →
      ParseError (some e) = (none, false)) ∧
    (∀ (ss : List String) (r : RestErr),
      ParseError (some (wrapAll ss (.rest r))) = (some r, true)) := by
  refine ⟨rfl, ?_, ?_⟩
  · intro e h
    simp [ParseError, errorsAs_eq_none_of_not_has e h]
  · intro ss r
    simp [ParseError, errorsAs_wrapAll_rest]

/-- Claim C5 witness: a concrete plain error parses to not-found, and a
concrete wrapped structured error parses to found. -/
theorem parseError_witness :
    ParseError (some (.basic "boom")) = (none, false) ∧
    ParseError (some (wrapAll ["ctx"] (.rest (NewNotFoundError "x" [] 0))))
      = (some (NewNotFoundError "x" [] 0), true) :=
  ⟨parseError_found_and_not_found.2.1 (.basic "boom") rfl,
   parseError_found_and_not_found.2.2 ["ctx"] (NewNotFoundError "x" [] 0)⟩

/-- Claim C6: for every `RestErr` and whatever status code it carries,
`IsClientError` holds exactly on [400,500), `IsServerError` exactly on
[500,600), and both are false outside [400,600). -/
theorem classification_ranges :
    ∀ r : RestErr,
      (r.IsClientError = true ↔ 400 ≤ r.Code ∧ r.Code < 500) ∧
      (r.IsServerError = true ↔ 500 ≤ r.Code ∧ r.Code < 600) ∧
      ((r.Code < 400 ∨ 600 ≤ r.Code) →
        r.IsClientError = false ∧ r.IsServerError = false) := by
  intro r
  refine ⟨?_, ?_, ?_⟩
  · simp [RestErr.IsClientError]
  · simp [RestErr.IsServerError]
  · intro h
    rcases h with h | h <;>
      constructor <;>
        simp [RestErr.IsClientError, RestErr.IsServerError] <;> omega

/-- Claim C6 witness: a concrete value with status code 700 is classified
as neither a client error nor a server error. -/
theorem classification_ranges_witness :
    (NewRestErr "m" "weird" 700 [] 0).IsClientError = false ∧
    (NewRestErr "m" "weird" 700 [] 0).IsServerError = false :=
  (classification_ranges (NewRestErr "m" "weird" 700 [] 0)).2.2
    (Or.inr (by decide))

/-- Claim C7: attaching an underlying cause with `WithCause` and then
calling `Unwrap` returns exactly the attached error, for every `RestErr`
and every non-nil error. -/
theorem withCause_unwrap_roundtrip :
    ∀ (r : RestErr) (e : GoError), (r.WithCause (some e)).Unwrap = some e := by
  intro r e
  cases r
  rfl

/-- Claim C8: rendering a `RestErr` yields `Message ++ ": " ++` the rendered
wrapped cause when one is present, and exactly `Message` when none is. -/
theorem error_rendering :
    ∀ r : RestErr,
      (∀ w : GoError, r.Wrapped = some w →
        r.Error = r.Message ++ ": " ++ w.render) ∧
      (r.Wrapped = none → r.Error = r.Message) := by
  intro r
  cases r with
  | mk m e c cs t w =>
    cases w with
    | none =>
      refine ⟨?_, fun _ => rfl⟩
      intro w h
      simp [RestErr.Wrapped] at h
    | some w0 =>
      refine ⟨?_, ?_⟩
      · intro w h
        simp [RestErr.Wrapped] at h
        subst h
        rfl
      · intro h
        simp [RestErr.Wrapped] at h

/-- Claim C8 witness: a concrete value with an attached cause renders with
the separator, and a concrete value without one renders as its message. -/
theorem error_rendering_witness :
    ((NewInternalServerError "server error" [] 0).WithCause
        (some (.basic "underlying error"))).Error
      = "server error: underlying error" ∧
    (NewBadRequestError "test message" [] 0).Error = "test message" := by
  constructor
  · have h := (error_rendering ((NewInternalServerError "server error" [] 0)
      |>.WithCause (some (.basic "underlying error")))).1
      (.basic "underlying error") rfl
    simpa using h
  · exact (error_rendering (NewBadRequestError "test message" [] 0)).2 rfl

/-- Claim C9: positional format arguments are substituted at construction
time: the documented example produces exactly the formatted message. -/
theorem badRequestError_formats_message :
    (NewBadRequestError "user %s not found with id %d"
        [.str "john", .int 123] 0).Message
      = "user john not found with id 123" := by
  decide

/-- Claim C10: `ParseError` and `NewRestErrFromError` agree: both treat
`nil` as absent; whenever `ParseError` reports found with result `r`,
`NewRestErrFromError` returns the same `r`; and whenever `ParseError`
reports not-found on a non-nil error, `NewRestErrFromError` synthesizes
exactly the default 500 value wrapping that error. -/
theorem parse_fromGeneric_agreement :
    (ParseError none = (none, false) ∧
      ∀ now, NewRestErrFromError none now = none) ∧
    (∀ (e : GoError) (now : Nat) (r : RestErr),
      ParseError (some e) = (some r, true) →
        NewRestErrFromError (some e) now = some r) ∧
    (∀ (e : GoError) (now : Nat), (ParseError (some e)).2 = false →
      NewRestErrFromError (some e) now
        = some (.mk "An unexpected error occurred" "internal server error"
            500 [] now (some e))) := by
  refine ⟨⟨rfl, fun _ => rfl⟩, ?_, ?_⟩
  · intro e now r h
    rcases he : errorsAs e with _ | r0
    · simp [ParseError, he] at h
    · simp [ParseError, he] at h
      simp [NewRestErrFromError, he, h]
  · intro e now h
    rcases he : errorsAs e with _ | r0
    · simp [NewRestErrFromError, he]
    · simp [ParseError, he] at h

/-- Claim C10 witness: on a concrete structured error, the value recovered
by `ParseError` is exactly the one `NewRestErrFromError` returns. -/
theorem parse_fromGeneric_agreement_witness :
    NewRestErrFromError (some (.rest (NewNotFoundError "x" [] 0))) 7
      = some (NewNotFoundError "x" [] 0) :=
  parse_fromGeneric_agreement.2.1 (.rest (NewNotFoundError "x" [] 0)) 7
    (NewNotFoundError "x" [] 0) rfl

end RestErrPkg
